import Mathlib

/-!
Shallow embedding of `homeassistant/components/rflink.py` (Rflink component).

The Python module consists of:
* `identify_event_type` — classify a loosely-typed inbound event record;
* `event_callback` (inside `async_setup`) — route an inbound event to the
  entities registered for its (event class, device id), falling back to the
  platform "new device" registration hook;
* `RflinkCommand` — the per-entity command dispatcher: optimistic state
  update, send through the bound protocol, and a cancellable chain of
  signal-repetition resends held in `_repetition_task`;
* `reconnect` — the disconnect callback, which resets the class-level
  protocol binding to `None` before scheduling a new connection;
* `SwitchableRflinkDevice._handle_event` — inbound remote commands cancel
  pending repetitions and set the on/off state.

Python dictionaries with the fixed optional keys `id`/`command`/`sensor`/
`unit` become a structure of `Option` fields; exceptions become `Except`
results; the asyncio task holding the suspended recursive
`_async_send_command` call becomes an explicit `Option RepTask` field that a
`run_repetition` step executes and `cancel_queued_send_commands` clears.
-/

namespace Rflink

/-- An inbound rflink packet event: a dictionary of varying content with the
known optional keys `id`, `command`, `sensor`, `unit` (`EVENT_KEY_*` in the
source). A missing key is `none`. -/
structure Event where
  id : Option String
  command : Option String
  sensor : Option String
  unitKey : Option String
deriving DecidableEq, Repr

def EVENT_KEY_COMMAND : String := "command"

def EVENT_KEY_SENSOR : String := "sensor"

/-- `identify_event_type(event)`: look at event to determine type of device.
`if EVENT_KEY_COMMAND in event: ... elif EVENT_KEY_SENSOR in event: ...
else: return 'unknown'`. -/
def identify_event_type (event : Event) : String :=
  if event.command.isSome then EVENT_KEY_COMMAND
  else if event.sensor.isSome then EVENT_KEY_SENSOR
  else "unknown"

/-- A registered entity as the router sees it: an opaque reference plus
whether its `handle_event` raises an exception when invoked (Python methods
may raise; the router's `for` loop has no exception handling). -/
structure Handler where
  hid : Nat
  fails : Bool
deriving DecidableEq, Repr

/-- `hass.data[DATA_ENTITY_LOOKUP]`: set up in `async_setup` with exactly the
two keys `EVENT_KEY_COMMAND` and `EVENT_KEY_SENSOR`, each a
`defaultdict(list)` from device id to the list of registered entities (a
missing id yields `[]`, which the field functions model directly). -/
structure EntityLookup where
  command : Option String → List Handler
  sensor : Option String → List Handler

/-- `hass.data[DATA_DEVICE_REGISTER]`: whether a platform has registered a
new-unknown-device callback for each event class
(`event_type in hass.data[DATA_DEVICE_REGISTER]`). -/
structure DeviceRegister where
  command : Bool
  sensor : Bool

/-- Observable effects of routing one event: `entity.handle_event(event)`
calls, and `hass.async_run_job(hass.data[DATA_DEVICE_REGISTER][...], event)`
new-device registrations. -/
inductive Action where
  | handle_event (h : Handler) (e : Event)
  | register_new_device (event_type : String) (e : Event)
deriving DecidableEq, Repr

/-- The `for entity in entities: entity.handle_event(event)` loop.  Returns
the invocations made, and whether the loop was aborted by an exception
raised inside a handler (there is no `try` around the body, so a raising
handler stops the loop). -/
def dispatch_to_entities (e : Event) : List Handler → List Action × Bool
  | [] => ([], false)
  | h :: rest =>
      if h.fails then ([Action.handle_event h e], true)
      else
        let tail := dispatch_to_entities e rest
        (Action.handle_event h e :: tail.1, tail.2)

/-- `event_callback(event)`: identify the event, drop non-entity events
(classes other than the two keys of `DATA_ENTITY_LOOKUP`), look up entities
for `event.get('id', None)`; if any matched, propagate to every one,
otherwise hand the raw event to the platform registration callback when one
is installed.  Returns the trace of invocations and the aborted-by-exception
flag. -/
def event_callback (lookup : EntityLookup) (reg : DeviceRegister) (e : Event) :
    List Action × Bool :=
  let event_type := identify_event_type e
  if event_type = EVENT_KEY_COMMAND then
    let entities := lookup.command e.id
    if entities.isEmpty then
      if reg.command then ([Action.register_new_device event_type e], false)
      else ([], false)
    else dispatch_to_entities e entities
  else if event_type = EVENT_KEY_SENSOR then
    let entities := lookup.sensor e.id
    if entities.isEmpty then
      if reg.sensor then ([Action.register_new_device event_type e], false)
      else ([], false)
    else dispatch_to_entities e entities
  else ([], false)

/-- The asyncio task created by `self.hass.loop.create_task(
self._async_send_command(cmd, repetitions - 1))` and stored in
`self._repetition_task`: a suspended call of `_async_send_command` holding
the payload and the remaining-repetitions argument. -/
structure RepTask where
  cmd : String
  repetitions : Nat
deriving DecidableEq, Repr

/-- Exceptions escaping the command path.  `sendFailed` is the
`AttributeError` raised by `self._protocol.send_command_ack` /
`self._protocol.send_command` attribute access while the class-level
`_protocol` binding is `None` (reset by `reconnect`); `unknownCommand` is
the `UnboundLocalError` raised when `cmd` was never assigned because the
logical command matched no branch of `_async_handle_command`. -/
inductive SendError where
  | sendFailed
  | unknownCommand
deriving DecidableEq, Repr

/-- State of one `RflinkCommand` entity, plus the transmissions the
transport observed on its behalf.  `_state` is `STATE_UNKNOWN` (`none`) or
on/off (`some true` / `some false`); `repetition_task` is `none` when no
live (pending, uncancelled) repetition task exists — cancelling a task, and
a task completing, both leave no live task, which Python represents as a
stale object in `_repetition_task` whose `cancel()` is a no-op. -/
structure DevState where
  device_id : String
  signal_repetitions : Nat
  st : Option Bool
  repetition_task : Option RepTask
  transmissions : List (String × String)
deriving DecidableEq, Repr

/-- `cancel_queued_send_commands(self)`: `if self._repetition_task:
self._repetition_task.cancel()` — the pending repetition task, if any, will
never run. -/
def cancel_queued_send_commands (s : DevState) : DevState :=
  { s with repetition_task := none }

/-- One execution of the body of `_async_send_command(self, cmd,
repetitions)` with the class-level protocol binding `protocol`
(`some ()` when a connection is bound, `none` after `reconnect` reset it).
When no protocol is bound, the attribute access on `None` raises before
anything is handed to the transport (in both the `_wait_ack` and the
fire-and-forget branch the payload reaches the transport the same way, so
the ack mode is not modelled separately).  Otherwise the `(device_id, cmd)`
payload is handed to the transport and, `if repetitions > 1`, a task for
`_async_send_command(cmd, repetitions - 1)` is stored in
`_repetition_task`. -/
def _async_send_command (protocol : Option Unit) (s : DevState)
    (cmd : String) (repetitions : Nat) : DevState × Except SendError Unit :=
  match protocol with
  | none => (s, Except.error SendError.sendFailed)
  | some _ =>
      let s1 := { s with transmissions := s.transmissions ++ [(s.device_id, cmd)] }
      if repetitions > 1 then
        ({ s1 with repetition_task := some ⟨cmd, repetitions - 1⟩ }, Except.ok ())
      else (s1, Except.ok ())

/-- The event loop running the pending repetition task, when one exists:
the suspended `_async_send_command(cmd, repetitions)` call executes.  A
state with no live task is unchanged. -/
def run_repetition (protocol : Option Unit) (s : DevState) :
    DevState × Except SendError Unit :=
  match s.repetition_task with
  | none => (s, Except.ok ())
  | some t =>
      _async_send_command protocol { s with repetition_task := none } t.cmd t.repetitions

/-- Run the event loop for up to `fuel` repetition steps (each step runs the
pending repetition task if there is one).  No new command is issued and
nothing is cancelled in between: this is the "absent cancellation" /
"never cancelled" schedule. -/
def drain (protocol : Option Unit) : Nat → DevState → DevState
  | 0, s => s
  | fuel + 1, s =>
      match s.repetition_task with
      | none => s
      | some _ => drain protocol fuel (run_repetition protocol s).1

/-- The `if command == ... / elif ...` chain of `_async_handle_command`:
for a recognised logical command, the rflink payload `cmd` assigned and the
new `self._state`; for any other command no branch assigns `cmd`
(`none`).  `"dim"` converts brightness to rflink dim level by
`str(int(args[0] / 17))`; the brightness argument is a non-negative
integer, for which CPython's `int(b / 17)` equals truncated (floor)
division `b / 17` on `Nat`. -/
def translate_command (command : String) (args : List Nat) :
    Option (String × Bool) :=
  if command = "turn_on" then some ("on", true)
  else if command = "turn_off" then some ("off", false)
  else if command = "dim" then some (toString (args.headD 0 / 17), true)
  else none

/-- `_async_handle_command(self, command, *args)`: cancel queued send
commands, assign `cmd` and optimistically update `self._state` according to
the logical command, then send the initial command and queue repetitions.
An unrecognised command leaves `cmd` unassigned, so evaluating the argument
of `self._async_send_command(cmd, ...)` raises before any transmission;
the optimistic `_state` assignment is never rolled back when the send
itself raises. -/
def _async_handle_command (protocol : Option Unit) (s : DevState)
    (command : String) (args : List Nat) : DevState × Except SendError Unit :=
  let s0 := cancel_queued_send_commands s
  match translate_command command args with
  | none => (s0, Except.error SendError.unknownCommand)
  | some (cmd, newState) =>
      let s1 := { s0 with st := some newState }
      _async_send_command protocol s1 cmd s1.signal_repetitions

/-- `reconnect(exc=None)`: reset protocol binding
(`RflinkCommand.set_rflink_protocol(None)`) before starting reconnect, and
`if hass.state != CoreState.stopping` schedule a new `connect` job.
Returns the new class-level protocol binding and whether a reconnect was
scheduled. -/
def reconnect (hassStopping : Bool) : Option Unit × Bool :=
  (none, !hassStopping)

/-- `SwitchableRflinkDevice._handle_event(self, event)`: first
`self.cancel_queued_send_commands()`, then `command = event['command']`
(`none` result models the `KeyError` on an event without a command field)
and adjust `self._state` for `'on'` / `'off'`. -/
def switchable_handle_event (s : DevState) (e : Event) : Option DevState :=
  let s0 := cancel_queued_send_commands s
  match e.command with
  | none => none
  | some command =>
      some (if command = "on" then { s0 with st := some true }
            else if command = "off" then { s0 with st := some false }
            else s0)

/-- The entity list `event_callback` looks up for an event of class
`command` or `sensor`: `hass.data[DATA_ENTITY_LOOKUP][event_type][event_id]`. -/
def lookup_entities (lookup : EntityLookup) (e : Event) : List Handler :=
  if identify_event_type e = EVENT_KEY_COMMAND then lookup.command e.id
  else lookup.sensor e.id

/-- Whether a new-unknown-device callback is installed for the event's
class: `event_type in hass.data[DATA_DEVICE_REGISTER]`. -/
def register_hook_installed (reg : DeviceRegister) (e : Event) : Bool :=
  if identify_event_type e = EVENT_KEY_COMMAND then reg.command
  else reg.sensor

theorem dispatch_to_entities_ok (e : Event) (l : List Handler)
    (hok : ∀ h ∈ l, h.fails = false) :
    dispatch_to_entities e l = (l.map (fun h => Action.handle_event h e), false) := by
  induction l with
  | nil => rfl
  | cons h rest ih =>
      have hh : h.fails = false := hok h (by simp)
      have hrest : ∀ x ∈ rest, x.fails = false := fun x hx => hok x (by simp [hx])
      simp [dispatch_to_entities, hh, ih hrest]

/-- C4: for every inbound event record, classification returns the command
class when a command field is present (also when a sensor field is present
too), the sensor class when only a sensor field is present, and unknown
otherwise; the result is always exactly one of the three classes. -/
theorem claim_C4_classification (e : Event) :
    (e.command.isSome → identify_event_type e = EVENT_KEY_COMMAND)
    ∧ (e.command = none → e.sensor.isSome →
        identify_event_type e = EVENT_KEY_SENSOR)
    ∧ (e.command = none → e.sensor = none → identify_event_type e = "unknown")
    ∧ (identify_event_type e = EVENT_KEY_COMMAND
        ∨ identify_event_type e = EVENT_KEY_SENSOR
        ∨ identify_event_type e = "unknown")
    ∧ EVENT_KEY_COMMAND ≠ EVENT_KEY_SENSOR
    ∧ EVENT_KEY_COMMAND ≠ "unknown"
    ∧ EVENT_KEY_SENSOR ≠ "unknown" := by
  refine ⟨?_, ?_, ?_, ?_, by decide, by decide, by decide⟩
  · intro h
    simp [identify_event_type, h]
  · intro h1 h2
    simp [identify_event_type, h1, h2, EVENT_KEY_SENSOR]
  · intro h1 h2
    simp [identify_event_type, h1, h2]
  · cases hc : e.command <;> cases hs : e.sensor <;>
      simp [identify_event_type, hc, hs, EVENT_KEY_COMMAND, EVENT_KEY_SENSOR]

theorem claim_C4_classification_witness :
    identify_event_type ⟨some "D1", some "on", some "7", none⟩ = EVENT_KEY_COMMAND
    ∧ identify_event_type ⟨some "D1", none, some "7", none⟩ = EVENT_KEY_SENSOR
    ∧ identify_event_type ⟨some "D1", none, none, none⟩ = "unknown" :=
  ⟨(claim_C4_classification ⟨some "D1", some "on", some "7", none⟩).1 (by decide),
   (claim_C4_classification ⟨some "D1", none, some "7", none⟩).2.1 rfl (by decide),
   (claim_C4_classification ⟨some "D1", none, none, none⟩).2.2.1 rfl rfl⟩

/-- C1: for an event of class command or sensor whose (class, id) has N ≥ 1
registered handlers (none of which raises), routing invokes `handle_event`
exactly once on each handler and produces no new-device registration; for
such an event with zero registered handlers and an installed new-device
hook, routing invokes exactly that hook once, with the raw event, and no
handler. -/
theorem claim_C1_routing (lookup : EntityLookup) (reg : DeviceRegister) (e : Event)
    (hcls : identify_event_type e = EVENT_KEY_COMMAND
      ∨ identify_event_type e = EVENT_KEY_SENSOR) :
    (lookup_entities lookup e ≠ [] →
        (∀ h ∈ lookup_entities lookup e, h.fails = false) →
        (event_callback lookup reg e).1
            = (lookup_entities lookup e).map (fun h => Action.handle_event h e)
        ∧ ((lookup_entities lookup e).Nodup →
            ∀ h ∈ lookup_entities lookup e,
              (event_callback lookup reg e).1.count (Action.handle_event h e) = 1)
        ∧ (∀ cls e2,
            Action.register_new_device cls e2 ∉ (event_callback lookup reg e).1))
    ∧ (lookup_entities lookup e = [] → register_hook_installed reg e = true →
        (event_callback lookup reg e).1
          = [Action.register_new_device (identify_event_type e) e]) := by
  have hmain :
      ∀ (ents : List Handler) (hook : Bool),
        lookup_entities lookup e = ents →
        register_hook_installed reg e = hook →
        (event_callback lookup reg e).1
          = (if ents.isEmpty then
              (if hook then [Action.register_new_device (identify_event_type e) e]
               else [])
             else (dispatch_to_entities e ents).1) := by
    intro ents hook hents hhook
    rcases hcls with hc | hc
    all_goals
      simp_all [event_callback, lookup_entities, register_hook_installed,
        EVENT_KEY_COMMAND, EVENT_KEY_SENSOR]
    all_goals
      split
      · split <;> rfl
      · rfl
  constructor
  · intro hne hok
    have htrace : (event_callback lookup reg e).1
        = (lookup_entities lookup e).map (fun h => Action.handle_event h e) := by
      have := hmain (lookup_entities lookup e) (register_hook_installed reg e) rfl rfl
      rw [this, if_neg (by simpa using hne), dispatch_to_entities_ok e _ hok]
    refine ⟨htrace, ?_, ?_⟩
    · intro hnd h hmem
      have hinj : Function.Injective (fun h => Action.handle_event h e) := by
        intro a b hab
        simpa using hab
      rw [htrace]
      exact (List.count_map_of_injective _ _ hinj h).trans
        (List.count_eq_one_of_mem hnd hmem)
    · intro cls e2
      rw [htrace]
      simp
  · intro hempty hhook
    have := hmain (lookup_entities lookup e) (register_hook_installed reg e) rfl rfl
    rw [this, hempty, hhook]
    simp

theorem claim_C1_routing_witness :
    (event_callback
        ⟨fun i => if i = some "D1" then [⟨1, false⟩, ⟨2, false⟩] else [],
         fun _ => []⟩
        ⟨true, true⟩ ⟨some "D1", some "on", none, none⟩).1
      = [Action.handle_event ⟨1, false⟩ ⟨some "D1", some "on", none, none⟩,
         Action.handle_event ⟨2, false⟩ ⟨some "D1", some "on", none, none⟩]
    ∧ (event_callback
        ⟨fun _ => [], fun _ => []⟩
        ⟨true, true⟩ ⟨some "D2", some "on", none, none⟩).1
      = [Action.register_new_device
          (identify_event_type ⟨some "D2", some "on", none, none⟩)
          ⟨some "D2", some "on", none, none⟩] :=
  ⟨((claim_C1_routing _ _ _ (by left; decide)).1 (by decide)
      (by decide)).1,
   (claim_C1_routing _ _ _ (by left; decide)).2 (by decide) (by decide)⟩

theorem dispatch_to_entities_fail (e : Event) (pre post : List Handler)
    (hf : Handler) (hok : ∀ h ∈ pre, h.fails = false) (hfail : hf.fails = true) :
    dispatch_to_entities e (pre ++ hf :: post)
      = (pre.map (fun h => Action.handle_event h e)
          ++ [Action.handle_event hf e], true) := by
  induction pre with
  | nil => simp [dispatch_to_entities, hfail]
  | cons h rest ih =>
      have hh : h.fails = false := hok h (by simp)
      have hrest : ∀ x ∈ rest, x.fails = false := fun x hx => hok x (by simp [hx])
      simp [dispatch_to_entities, hh, ih hrest]

/-- C5 counterexample: two handlers are registered under the same
(command, "D1") pair; the first one's `handle_event` raises.  The dispatch
loop has no exception handling, so the event is never delivered to the
second registered handler — refuting the claim that every registered
handler still receives the event. -/
theorem claim_C5_counterexample :
    Action.handle_event ⟨2, false⟩ ⟨some "D1", some "on", none, none⟩
      ∉ (event_callback
          ⟨fun i => if i = some "D1" then [⟨1, true⟩, ⟨2, false⟩] else [],
           fun _ => []⟩
          ⟨false, false⟩ ⟨some "D1", some "on", none, none⟩).1 := by
  decide

/-- C5 amended: for an event matched by several handlers, a failure raised
by one handler aborts the dispatch loop: handlers before it (in
registration order) receive the event, the failing handler is invoked and
raises, and handlers after it do not receive the event. -/
theorem claim_C5_amended_first_failure (lookup : EntityLookup)
    (reg : DeviceRegister) (e : Event) (pre post : List Handler) (hf : Handler)
    (hcls : identify_event_type e = EVENT_KEY_COMMAND)
    (hents : lookup.command e.id = pre ++ hf :: post)
    (hok : ∀ h ∈ pre, h.fails = false) (hfail : hf.fails = true) :
    event_callback lookup reg e
      = (pre.map (fun h => Action.handle_event h e)
          ++ [Action.handle_event hf e], true) := by
  simp [event_callback, hcls, EVENT_KEY_COMMAND, hents,
    dispatch_to_entities_fail e pre post hf hok hfail]

theorem claim_C5_amended_first_failure_witness :
    event_callback
        ⟨fun i => if i = some "D1" then [⟨1, true⟩, ⟨2, false⟩] else [],
         fun _ => []⟩
        ⟨false, false⟩ ⟨some "D1", some "on", none, none⟩
      = (List.map (fun h => Action.handle_event h ⟨some "D1", some "on", none, none⟩) []
          ++ [Action.handle_event ⟨1, true⟩ ⟨some "D1", some "on", none, none⟩],
         true) :=
  claim_C5_amended_first_failure _ _ _ [] [⟨2, false⟩] ⟨1, true⟩
    (by decide) (by decide) (by decide) rfl

theorem drain_no_task (p : Option Unit) (fuel : Nat) (s : DevState)
    (h : s.repetition_task = none) : drain p fuel s = s := by
  cases fuel <;> simp [drain, h]

theorem send_drain (cmd : String) :
    ∀ (R fuel : Nat) (s : DevState), 1 ≤ R → R ≤ fuel + 1 →
      s.repetition_task = none →
      drain (some ()) fuel (_async_send_command (some ()) s cmd R).1
        = { s with transmissions :=
              s.transmissions ++ List.replicate R (s.device_id, cmd) } := by
  intro R
  induction R with
  | zero => intro fuel s h1 _ _; omega
  | succ r ih =>
      intro fuel s _ hfuel htask
      obtain ⟨did, sr, st, task, tx⟩ := s
      simp only at htask
      subst htask
      cases r with
      | zero =>
          have hsend : _async_send_command (some ()) ⟨did, sr, st, none, tx⟩ cmd 1
              = (⟨did, sr, st, none, tx ++ [(did, cmd)]⟩, Except.ok ()) := by
            simp [_async_send_command]
          rw [hsend, drain_no_task _ _ _ rfl]
          simp
      | succ r' =>
          have hsend : _async_send_command (some ()) ⟨did, sr, st, none, tx⟩ cmd (r' + 2)
              = (⟨did, sr, st, some ⟨cmd, r' + 1⟩, tx ++ [(did, cmd)]⟩,
                 Except.ok ()) := by
            simp [_async_send_command]
          obtain ⟨f, rfl⟩ : ∃ f, fuel = f + 1 := ⟨fuel - 1, by omega⟩
          rw [hsend]
          have hstep :
              drain (some ()) (f + 1)
                  ⟨did, sr, st, some ⟨cmd, r' + 1⟩, tx ++ [(did, cmd)]⟩
                = drain (some ()) f
                    (_async_send_command (some ())
                      ⟨did, sr, st, none, tx ++ [(did, cmd)]⟩ cmd (r' + 1)).1 := by
            simp [drain, run_repetition]
          rw [hstep,
            ih f ⟨did, sr, st, none, tx ++ [(did, cmd)]⟩ (by omega) (by omega) rfl]
          simp [List.replicate_succ]

theorem send_command_ok (s : DevState) (cmd : String) (R : Nat) :
    (_async_send_command (some ()) s cmd R).2 = Except.ok () := by
  simp only [_async_send_command]
  split <;> rfl

/-- C2: for a handler with `signal_repetitions = R ≥ 1` and a bound
protocol, a single recognised command call succeeds and — with the
repetition tasks left to run to completion, never cancelled — hands
exactly R copies of the same `(device_id, payload)` pair to the transport:
the initial send plus R - 1 scheduled repeats. -/
theorem claim_C2_signal_repetitions (s : DevState) (command : String)
    (args : List Nat) (cmd : String) (newState : Bool)
    (ht : translate_command command args = some (cmd, newState))
    (hR : 1 ≤ s.signal_repetitions) :
    (_async_handle_command (some ()) s command args).2 = Except.ok ()
    ∧ (drain (some ()) s.signal_repetitions
          (_async_handle_command (some ()) s command args).1).transmissions
        = s.transmissions
            ++ List.replicate s.signal_repetitions (s.device_id, cmd)
    ∧ (drain (some ()) s.signal_repetitions
          (_async_handle_command (some ()) s command args).1).repetition_task
        = none := by
  refine ⟨?_, ?_, ?_⟩
  · simp only [_async_handle_command, ht]
    exact send_command_ok _ cmd _
  · obtain ⟨did, sr, st0, task, tx⟩ := s
    simp only [_async_handle_command, ht, cancel_queued_send_commands] at hR ⊢
    rw [send_drain cmd sr sr ⟨did, sr, some newState, none, tx⟩ hR (by omega) rfl]
  · obtain ⟨did, sr, st0, task, tx⟩ := s
    simp only [_async_handle_command, ht, cancel_queued_send_commands] at hR ⊢
    rw [send_drain cmd sr sr ⟨did, sr, some newState, none, tx⟩ hR (by omega) rfl]

theorem claim_C2_signal_repetitions_witness :
    (_async_handle_command (some ()) ⟨"D1", 3, none, none, []⟩ "turn_on" []).2
        = Except.ok ()
    ∧ (drain (some ()) 3
          (_async_handle_command (some ())
            ⟨"D1", 3, none, none, []⟩ "turn_on" []).1).transmissions
        = [] ++ List.replicate 3 ("D1", "on")
    ∧ (drain (some ()) 3
          (_async_handle_command (some ())
            ⟨"D1", 3, none, none, []⟩ "turn_on" []).1).repetition_task
        = none :=
  claim_C2_signal_repetitions ⟨"D1", 3, none, none, []⟩ "turn_on" [] "on" true
    (by decide) (by decide)

theorem send_result_shape (did : String) (sr : Nat) (st0 : Option Bool)
    (tx : List (String × String)) (cmd : String) (R : Nat) :
    ∃ task, (_async_send_command (some ()) ⟨did, sr, st0, none, tx⟩ cmd R).1
        = ⟨did, sr, st0, task, tx ++ [(did, cmd)]⟩
      ∧ ∀ t, task = some t → t.cmd = cmd := by
  by_cases hrep : R > 1
  · refine ⟨some ⟨cmd, R - 1⟩, by simp [_async_send_command, hrep], ?_⟩
    intro t ht
    cases ht
    rfl
  · exact ⟨none, by simp [_async_send_command, hrep], by intro t ht; cases ht⟩

theorem drain_task_payload (pay : String) :
    ∀ (fuel : Nat) (s : DevState),
      (∀ t, s.repetition_task = some t → t.cmd = pay) →
      ∃ n, (drain (some ()) fuel s).transmissions
        = s.transmissions ++ List.replicate n (s.device_id, pay) := by
  intro fuel
  induction fuel with
  | zero => intro s _; exact ⟨0, by simp [drain]⟩
  | succ f ih =>
      intro s hinv
      obtain ⟨did, sr, st0, task, tx⟩ := s
      cases task with
      | none => exact ⟨0, by simp [drain]⟩
      | some t =>
          obtain ⟨c, reps⟩ := t
          have hcmd : c = pay := hinv ⟨c, reps⟩ rfl
          subst hcmd
          have hstep : drain (some ()) (f + 1) ⟨did, sr, st0, some ⟨c, reps⟩, tx⟩
              = drain (some ()) f
                  (_async_send_command (some ()) ⟨did, sr, st0, none, tx⟩ c reps).1 := by
            simp [drain, run_repetition]
          obtain ⟨task2, hshape, hinv2⟩ := send_result_shape did sr st0 tx c reps
          obtain ⟨n, hn⟩ :=
            ih ⟨did, sr, st0, task2, tx ++ [(did, c)]⟩ (fun t ht => hinv2 t ht)
          refine ⟨n + 1, ?_⟩
          rw [hstep, hshape, hn]
          simp [List.replicate_succ]

/-- C3: a `PendingRepetition`, once cancelled, performs no further sends —
running the event loop on the cancelled state transmits nothing; and after
issuing a new command B while command A's repeats are still pending (which
starts by cancelling them), every transmission produced by any number of
further repetition steps carries B's payload, so the transport never
observes A's payload (different from B's) after the cancellation. -/
theorem claim_C3_cancel_preempts (p : Option Unit) (s sA : DevState)
    (tA : RepTask) (hA : sA.repetition_task = some tA)
    (commandB : String) (args : List Nat) (payB : String) (newState : Bool)
    (ht : translate_command commandB args = some (payB, newState))
    (hne : payB ≠ tA.cmd) (fuel : Nat) :
    run_repetition p (cancel_queued_send_commands s)
        = (cancel_queued_send_commands s, Except.ok ())
    ∧ (sA.device_id, tA.cmd)
        ∉ ((drain (some ()) fuel
              (_async_handle_command (some ()) sA commandB args).1).transmissions).drop
            sA.transmissions.length := by
  constructor
  · simp [run_repetition, cancel_queued_send_commands]
  · obtain ⟨did, sr, st0, task, tx⟩ := sA
    simp only [_async_handle_command, ht, cancel_queued_send_commands]
    obtain ⟨task2, hshape, hinv2⟩ := send_result_shape did sr (some newState) tx payB sr
    rw [hshape]
    obtain ⟨n, hn⟩ := drain_task_payload payB fuel
      ⟨did, sr, some newState, task2, tx ++ [(did, payB)]⟩
      (fun t htt => hinv2 t htt)
    rw [hn, List.append_assoc, List.drop_left]
    intro hmem
    have hpay : tA.cmd = payB := by
      rcases List.mem_cons.mp hmem with h | h
      · exact congrArg Prod.snd h
      · exact congrArg Prod.snd (List.eq_of_mem_replicate h)
    exact hne hpay.symm

theorem claim_C3_cancel_preempts_witness :
    (run_repetition (some ())
          (cancel_queued_send_commands
            ⟨"D1", 3, some true, some ⟨"on", 2⟩, [("D1", "on")]⟩)
        = (cancel_queued_send_commands
            ⟨"D1", 3, some true, some ⟨"on", 2⟩, [("D1", "on")]⟩, Except.ok ()))
    ∧ ("D1", "on")
        ∉ ((drain (some ()) 5
              (_async_handle_command (some ())
                ⟨"D1", 3, some true, some ⟨"on", 2⟩, [("D1", "on")]⟩
                "turn_off" []).1).transmissions).drop 1 :=
  claim_C3_cancel_preempts (some ())
    ⟨"D1", 3, some true, some ⟨"on", 2⟩, [("D1", "on")]⟩
    ⟨"D1", 3, some true, some ⟨"on", 2⟩, [("D1", "on")]⟩
    ⟨"on", 2⟩ rfl "turn_off" [] "off" false (by decide) (by decide) 5

theorem send_transmissions (s : DevState) (cmd : String) (R : Nat) :
    (_async_send_command (some ()) s cmd R).1.transmissions
      = s.transmissions ++ [(s.device_id, cmd)] := by
  simp only [_async_send_command]
  split <;> simp

/-- C6: the disconnect callback immediately resets the published protocol
binding to `None` (and schedules exactly one reconnect unless HA is
stopping); with the binding reset, a command send from any handler raises
`SendFailed` and nothing reaches the transport; once a connection is bound
again, the very same handler's sends succeed and reach the transport —
no re-registration of the handler is involved. -/
theorem claim_C6_disconnect_send (s : DevState) (hassStopping : Bool)
    (command : String) (args : List Nat) (cmd : String) (newState : Bool)
    (ht : translate_command command args = some (cmd, newState)) :
    (reconnect hassStopping).1 = none
    ∧ (reconnect hassStopping).2 = !hassStopping
    ∧ (_async_handle_command (reconnect hassStopping).1 s command args).2
        = Except.error SendError.sendFailed
    ∧ (_async_handle_command (reconnect hassStopping).1 s command args).1.transmissions
        = s.transmissions
    ∧ (_async_handle_command (some ()) s command args).2 = Except.ok ()
    ∧ (_async_handle_command (some ()) s command args).1.transmissions
        = s.transmissions ++ [(s.device_id, cmd)] := by
  refine ⟨rfl, rfl, ?_, ?_, ?_, ?_⟩
  · simp [reconnect, _async_handle_command, ht, _async_send_command]
  · simp [reconnect, _async_handle_command, ht, _async_send_command,
      cancel_queued_send_commands]
  · simp only [_async_handle_command, ht]
    exact send_command_ok _ cmd _
  · simp only [_async_handle_command, ht]
    rw [send_transmissions]
    simp [cancel_queued_send_commands]

theorem claim_C6_disconnect_send_witness :
    (reconnect false).1 = none
    ∧ (reconnect false).2 = !false
    ∧ (_async_handle_command (reconnect false).1
          ⟨"D1", 1, none, none, []⟩ "turn_on" []).2
        = Except.error SendError.sendFailed
    ∧ (_async_handle_command (reconnect false).1
          ⟨"D1", 1, none, none, []⟩ "turn_on" []).1.transmissions = []
    ∧ (_async_handle_command (some ())
          ⟨"D1", 1, none, none, []⟩ "turn_on" []).2 = Except.ok ()
    ∧ (_async_handle_command (some ())
          ⟨"D1", 1, none, none, []⟩ "turn_on" []).1.transmissions
        = [] ++ [("D1", "on")] :=
  claim_C6_disconnect_send ⟨"D1", 1, none, none, []⟩ false "turn_on" [] "on" true
    (by decide)

/-- C7: the dim command translates a non-negative brightness b to the
gateway dim level b / 17 with the quotient truncated — the transmitted
level q satisfies 17·q ≤ b < 17·q + 17, which rules out
rounding-to-nearest — and the outbound payload string is a function of b
alone, so equal brightness inputs produce identical payloads. -/
theorem claim_C7_dim_truncation (s : DevState) (b : Nat) :
    (_async_handle_command (some ()) s "dim" [b]).1.transmissions
      = s.transmissions ++ [(s.device_id, toString (b / 17))]
    ∧ 17 * (b / 17) ≤ b ∧ b < 17 * (b / 17) + 17 := by
  refine ⟨?_, ?_, ?_⟩
  · have ht : translate_command "dim" [b] = some (toString (b / 17), true) := by
      simp [translate_command]
    simp only [_async_handle_command, ht]
    rw [send_transmissions]
    simp [cancel_queued_send_commands]
  · have := Nat.div_mul_le_self b 17
    omega
  · have h1 := Nat.div_add_mod b 17
    have h2 : b % 17 < 17 := Nat.mod_lt b (by norm_num)
    omega

/-- C8: a command-capable handler's inbound event handling first cancels
any pending repetition — after it no live repetition task remains and any
number of further event-loop steps transmits nothing — and then applies
the remote state change: an inbound "off" leaves the state off. -/
theorem claim_C8_inbound_cancels (s : DevState) (e : Event) (c : String)
    (hc : e.command = some c) (p : Option Unit) (fuel : Nat) :
    ∃ s2, switchable_handle_event s e = some s2
      ∧ s2.repetition_task = none
      ∧ drain p fuel s2 = s2
      ∧ s2.transmissions = s.transmissions
      ∧ (c = "off" → s2.st = some false)
      ∧ (c = "on" → s2.st = some true) := by
  obtain ⟨did, sr, st0, task, tx⟩ := s
  by_cases h1 : c = "on"
  · subst h1
    refine ⟨⟨did, sr, some true, none, tx⟩, ?_, rfl, drain_no_task _ _ _ rfl, rfl,
      ?_, fun _ => rfl⟩
    · simp [switchable_handle_event, hc, cancel_queued_send_commands]
    · intro h; exact absurd h (by decide)
  · by_cases h2 : c = "off"
    · subst h2
      refine ⟨⟨did, sr, some false, none, tx⟩, ?_, rfl, drain_no_task _ _ _ rfl, rfl,
        fun _ => rfl, ?_⟩
      · simp [switchable_handle_event, hc, cancel_queued_send_commands]
      · intro h; exact absurd h (by decide)
    · refine ⟨⟨did, sr, st0, none, tx⟩, ?_, rfl, drain_no_task _ _ _ rfl, rfl,
        fun h => absurd h h2, fun h => absurd h h1⟩
      simp [switchable_handle_event, hc, cancel_queued_send_commands, h1, h2]

theorem claim_C8_inbound_cancels_witness :
    ∃ s2, switchable_handle_event
          ⟨"D1", 3, some true, some ⟨"on", 1⟩, [("D1", "on"), ("D1", "on")]⟩
          ⟨some "D1", some "off", none, none⟩ = some s2
      ∧ s2.repetition_task = none
      ∧ drain (some ()) 5 s2 = s2
      ∧ s2.transmissions = [("D1", "on"), ("D1", "on")]
      ∧ ("off" = "off" → s2.st = some false)
      ∧ ("off" = "on" → s2.st = some true) :=
  claim_C8_inbound_cancels
    ⟨"D1", 3, some true, some ⟨"on", 1⟩, [("D1", "on"), ("D1", "on")]⟩
    ⟨some "D1", some "off", none, none⟩ "off" rfl (some ()) 5

/-- C9: when a send fails because no connection is bound, the failure is
surfaced to the caller of `_async_handle_command`, nothing reaches the
transport, and the optimistic state update applied before the transmission
attempt is not rolled back: the state equals what the command set. -/
theorem claim_C9_optimistic_no_rollback (s : DevState) (command : String)
    (args : List Nat) (cmd : String) (newState : Bool)
    (ht : translate_command command args = some (cmd, newState)) :
    (_async_handle_command none s command args).2
        = Except.error SendError.sendFailed
    ∧ (_async_handle_command none s command args).1.st = some newState
    ∧ (_async_handle_command none s command args).1.transmissions
        = s.transmissions := by
  refine ⟨?_, ?_, ?_⟩ <;>
    simp [_async_handle_command, ht, _async_send_command,
      cancel_queued_send_commands]

theorem claim_C9_optimistic_no_rollback_witness :
    (_async_handle_command none ⟨"D1", 1, some false, none, []⟩ "turn_on" []).2
        = Except.error SendError.sendFailed
    ∧ (_async_handle_command none
          ⟨"D1", 1, some false, none, []⟩ "turn_on" []).1.st = some true
    ∧ (_async_handle_command none
          ⟨"D1", 1, some false, none, []⟩ "turn_on" []).1.transmissions = [] :=
  claim_C9_optimistic_no_rollback ⟨"D1", 1, some false, none, []⟩ "turn_on" []
    "on" true (by decide)

/-- C10: for a logical command outside {"turn_on", "turn_off", "dim"} no
branch assigns a transport payload, so `_async_handle_command` raises
before any transmission occurs, with any protocol binding: the error is
returned, nothing is transmitted and the state is unchanged. -/
theorem claim_C10_unknown_command (p : Option Unit) (s : DevState)
    (command : String) (args : List Nat)
    (h1 : command ≠ "turn_on") (h2 : command ≠ "turn_off")
    (h3 : command ≠ "dim") :
    (_async_handle_command p s command args).2
        = Except.error SendError.unknownCommand
    ∧ (_async_handle_command p s command args).1.transmissions
        = s.transmissions
    ∧ (_async_handle_command p s command args).1.st = s.st := by
  refine ⟨?_, ?_, ?_⟩ <;>
    simp [_async_handle_command, translate_command, h1, h2, h3,
      cancel_queued_send_commands]

theorem claim_C10_unknown_command_witness :
    (_async_handle_command (some ())
          ⟨"D1", 1, some false, none, []⟩ "toggle" []).2
        = Except.error SendError.unknownCommand
    ∧ (_async_handle_command (some ())
          ⟨"D1", 1, some false, none, []⟩ "toggle" []).1.transmissions = []
    ∧ (_async_handle_command (some ())
          ⟨"D1", 1, some false, none, []⟩ "toggle" []).1.st = some false :=
  claim_C10_unknown_command (some ()) ⟨"D1", 1, some false, none, []⟩ "toggle" []
    (by decide) (by decide) (by decide)

end Rflink
